import Mathlib

/-!
# libopenui `menu.cpp`: selection, layout and event routing of the modal menu

A shallow embedding of `src/menu.cpp`.  The widget state (`Menu`, `MenuWindow`,
`MenuBody`, the line vector) becomes a record that every operation passes on
explicitly.  Calls that leave the file (the user callbacks `onPress` and
`onCancel`, `invalidate()`, `deleteLater()`, `toolbar->onEvent`) are recorded, in
program order, in an effect trace.  Undefined behaviour and the call of an empty
`std::function` end an operation in a `Failure`.

Machine integers: `int` and `coord_t` values are modelled on `Int`.  `size_t`
arithmetic, which the code relies on to wrap (`0 * h - 1`), is modelled modulo
`2 ^ 32` with the two's complement conversion back to `int`.  The `int` arithmetic
on the index passed to `select` wraps in the same way (`intMul`, `intSub`); the
layout arithmetic of `updatePosition` runs on the constants of the theme and the
clamped body height and is modelled on `Int` without wrap.
-/

namespace LibOpenUI

/-! ## Machine integers -/

/-- The modulus `2 ^ 32` of `size_t` arithmetic on the 32-bit target. -/
def SIZE_MOD : Nat := 4294967296

/-- Largest value of `int` (and of `coord_t`, an `int`). -/
def INT_MAX : Int := 2147483647

/-- Smallest value of `int`. -/
def INT_MIN : Int := -2147483648

/-- Conversion of an `int` to `size_t`: the value modulo `2 ^ 32`. -/
def toSize (x : Int) : Nat := (x % (SIZE_MOD : Int)).toNat

/-- Conversion of a `size_t` to `int` (or `coord_t`): two's complement. -/
def toInt (n : Nat) : Int :=
  if n % SIZE_MOD < 2147483648 then ((n % SIZE_MOD : Nat) : Int)
  else ((n % SIZE_MOD : Nat) : Int) - (SIZE_MOD : Int)

/-- Multiplication of two `size_t` values. -/
def sizeMul (a b : Nat) : Nat := (a * b) % SIZE_MOD

/-- Subtraction of two `size_t` values, wrapping below zero. -/
def sizeSub (a b : Nat) : Nat := (a % SIZE_MOD + (SIZE_MOD - b % SIZE_MOD)) % SIZE_MOD

/-- The value fits an `int`. -/
def InIntRange (x : Int) : Prop := INT_MIN ≤ x ∧ x ≤ INT_MAX

instance (x : Int) : Decidable (InIntRange x) := by
  unfold InIntRange; exact inferInstance

/-- Result of an `int` operation whose exact value is `x`: `x` itself when it fits an
`int`.  Signed overflow is undefined behaviour in C++; outside the range the model
gives the two's complement wrap that the target computes. -/
def wrapInt (x : Int) : Int := toInt (toSize x)

/-- Multiplication of two `int` values. -/
def intMul (a b : Int) : Int := wrapInt (a * b)

/-- Subtraction of two `int` values. -/
def intSub (a b : Int) : Int := wrapInt (a - b)

/-! ## Events, effects, failures -/

/-- Keys named by `menu.cpp`; `other` stands for every other key code. -/
inductive Key
  | KEY_ENTER
  | KEY_EXIT
  | KEY_PGDN
  | other (code : Nat)
  deriving DecidableEq

/-- Values of `event_t` that `menu.cpp` tells apart; `other` stands for the rest. -/
inductive Event
  | EVT_ROTARY_RIGHT
  | EVT_ROTARY_LEFT
  | EVT_KEY_BREAK (key : Key)
  | EVT_KEY_LONG (key : Key)
  | other (code : Nat)
  deriving DecidableEq

/-- Identity of a stored `std::function` target (a user closure). -/
abbrev Callback := Nat

/-- Calls that leave `menu.cpp`, in the order the code makes them. -/
inductive Effect
  /-- A call of `invalidate()` on the body. -/
  | invalidate
  /-- A call of `Menu::deleteLater()`: closure of the menu is scheduled. -/
  | deleteLater
  /-- A call of `lines[index].onPress()`, whose target is `cb`. -/
  | onPress (index : Nat) (cb : Callback)
  /-- A call of the body's `onCancel()`, whose target is `cb`. -/
  | onCancel (cb : Callback)
  /-- A call of `toolbar->onEvent(event)`. -/
  | toolbarOnEvent (event : Event)
  deriving DecidableEq

/-- Ways an operation of `menu.cpp` can fail to complete. -/
inductive Failure
  /-- Evaluation of `x % 0` or `x / 0`: undefined behaviour. -/
  | divisionByZero
  /-- Access `lines[i]` with `i` outside `[0, lines.size())`: undefined behaviour. -/
  | outOfBounds
  /-- Call of an empty `std::function` (`std::bad_function_call`). -/
  | badFunctionCall
  deriving DecidableEq

/-- Result of an operation that may fail. -/
inductive Outcome (α : Type)
  | ok (value : α)
  | fail (failure : Failure)
  deriving DecidableEq

/-! ## Data model -/

/-- Constants of `theme.h` and of the LCD configuration, not part of `menu.cpp`. -/
structure Theme where
  LCD_H : Int
  MENUS_WIDTH : Int
  MENUS_LINE_HEIGHT : Int
  MENUS_MIN_HEIGHT : Int
  MENUS_MAX_HEIGHT : Int
  MENUS_HEADER_HEIGHT : Int
  MENUS_FOOTER_HEIGHT : Int
  MENUS_OFFSET_TOP : Int
  deriving DecidableEq

/-- One entry of `MenuBody::lines`: a label or a custom painter, and `onPress`.
An empty `std::function` is `none`. -/
structure MenuLine where
  text : String
  drawLine : Option Callback
  onPress : Option Callback
  deriving DecidableEq

/-- State of `MenuBody`: the line vector, the selection, the cancel handler, and the
geometry and scroll fields it inherits from `Window`.  `scrollPositionY` holds the
offset last passed to `setScrollPositionY`, before the scrolling surface clamps it. -/
structure MenuBody where
  lines : List MenuLine
  selectedIndex : Int
  onCancel : Option Callback
  top : Int
  height : Int
  innerHeight : Int
  scrollPositionY : Int
  deriving DecidableEq

/-- State of `MenuWindow`: title, vertical geometry, and the body it owns. -/
structure MenuWindow where
  title : String
  top : Int
  height : Int
  body : MenuBody
  deriving DecidableEq

/-- State of `Menu`: whether a toolbar is registered, and the window it owns. -/
structure Menu where
  toolbar : Bool
  menuWindow : MenuWindow
  deriving DecidableEq

/-- The body of a menu. -/
def Menu.body (m : Menu) : MenuBody := m.menuWindow.body

/-- The menu with its body replaced. -/
def Menu.setBody (m : Menu) (b : MenuBody) : Menu :=
  { m with menuWindow := { m.menuWindow with body := b } }

/-- The call `lines.size()`, a `size_t`. -/
def MenuBody.size (b : MenuBody) : Nat := b.lines.length % SIZE_MOD

/-- The access `lines[index]` with an `int` index.  `std::vector::operator[]` checks
no bound: an index outside `[0, lines.size())` is undefined behaviour (`none`). -/
def MenuBody.lineAt (b : MenuBody) (index : Int) : Option MenuLine :=
  if 0 ≤ index then b.lines.get? index.toNat else none

/-! ## `MenuBody` -/

/-- Modelled from the spec: `Window::setScrollPositionY` of the windowing framework
(absent from the sources): the scroll-offset setter of the scrolling surface.  The
field keeps the offset requested; the surface clamps it on its side. -/
def MenuBody.setScrollPositionY (b : MenuBody) (value : Int) : MenuBody :=
  { b with scrollPositionY := value }

/-- The method `MenuBody::select(int index)`. -/
def MenuBody.select (t : Theme) (b : MenuBody) (index : Int) : MenuBody × List Effect :=
  let b1 := { b with selectedIndex := index }
  let b2 :=
    if b1.innerHeight > b1.height then
      b1.setScrollPositionY
        (intSub (intMul t.MENUS_LINE_HEIGHT index) (intMul 3 t.MENUS_LINE_HEIGHT))
    else b1
  (b2, [Effect.invalidate])

/-- The method `Menu::onEvent(event_t event)` (`HARDWARE_KEYS`): it changes no
state, its result is the calls it makes. -/
def Menu.onEvent (m : Menu) (event : Event) : List Effect :=
  if m.toolbar ∧ (event = Event.EVT_KEY_BREAK Key.KEY_PGDN ∨ event = Event.EVT_KEY_LONG Key.KEY_PGDN) then
    [Effect.toolbarOnEvent event]
  else if event = Event.EVT_KEY_BREAK Key.KEY_EXIT ∨ event = Event.EVT_KEY_BREAK Key.KEY_ENTER then
    [Effect.deleteLater]
  else
    []

/-- Modelled from the spec: `Window::onEvent`, the default handling of the windowing
framework (absent from the sources), as reached from the body: the event propagates
up the parent chain `MenuBody`, `MenuWindow`, `Menu`, where `Menu::onEvent`
handles it. -/
def Window.onEvent (m : Menu) (event : Event) : List Effect :=
  Menu.onEvent m event

/-- The method `MenuBody::onEvent(event_t event)` (`HARDWARE_KEYS`), on the body of
menu `m`.  Returns the calls made and the state reached, or the failure. -/
def MenuBody.onEvent (t : Theme) (m : Menu) (event : Event) : List Effect × Outcome Menu :=
  let b := m.body
  if event = Event.EVT_ROTARY_RIGHT then
    if b.size = 0 then
      ([], Outcome.fail Failure.divisionByZero)
    else
      let r := b.select t (toInt (toSize (b.selectedIndex + 1) % b.size))
      (r.2, Outcome.ok (m.setBody r.1))
  else if event = Event.EVT_ROTARY_LEFT then
    let index : Nat :=
      if b.selectedIndex = 0 then sizeSub b.size 1 else toSize (b.selectedIndex - 1)
    let r := b.select t (toInt index)
    (r.2, Outcome.ok (m.setBody r.1))
  else if event = Event.EVT_KEY_BREAK Key.KEY_ENTER then
    let closing := Window.onEvent m event
    match b.lineAt b.selectedIndex with
    | none => (closing, Outcome.fail Failure.outOfBounds)
    | some line =>
      match line.onPress with
      | none => (closing, Outcome.fail Failure.badFunctionCall)
      | some cb => (closing ++ [Effect.onPress b.selectedIndex.toNat cb], Outcome.ok m)
  else if event = Event.EVT_KEY_BREAK Key.KEY_EXIT then
    let cancelled :=
      match b.onCancel with
      | some cb => [Effect.onCancel cb]
      | none => []
    (cancelled ++ Window.onEvent m event, Outcome.ok m)
  else
    (Window.onEvent m event, Outcome.ok m)

/-- The method `MenuBody::onTouchEnd(coord_t x, coord_t y)` (`HARDWARE_TOUCH`).
Returns the calls made and the `bool` returned, or the failure. -/
def MenuBody.onTouchEnd (t : Theme) (b : MenuBody) (_x y : Int) : List Effect × Outcome Bool :=
  if t.MENUS_LINE_HEIGHT = 0 then
    ([], Outcome.fail Failure.divisionByZero)
  else
    let index : Int := Int.tdiv y t.MENUS_LINE_HEIGHT
    match b.lineAt index with
    | none => ([], Outcome.fail Failure.outOfBounds)
    | some line =>
      match line.onPress with
      | none => ([], Outcome.fail Failure.badFunctionCall)
      | some cb => ([Effect.onPress index.toNat cb], Outcome.ok false)

/-! ## `Menu` -/

/-- Modelled from the spec: `limit<coord_t>(min, value, max)` of the helpers header
(absent from the sources): the value clamped between a minimum and a maximum. -/
def limit (mi x ma : Int) : Int := min (max mi x) ma

/-- The expression `lines.size() * MENUS_LINE_HEIGHT - 1`, evaluated in `size_t` and
converted to `coord_t`. -/
def Menu.contentHeight (t : Theme) (m : Menu) : Int :=
  toInt (sizeSub (sizeMul m.body.size (toSize t.MENUS_LINE_HEIGHT)) 1)

/-- Modelled from the spec: `Window::setTop` of the windowing framework (absent from
the sources), on the menu window: the geometry setter for the top edge. -/
def MenuWindow.setTop (w : MenuWindow) (y : Int) : MenuWindow := { w with top := y }

/-- Modelled from the spec: `Window::setHeight` of the windowing framework (absent from
the sources), on the menu window: the geometry setter for the height. -/
def MenuWindow.setHeight (w : MenuWindow) (h : Int) : MenuWindow := { w with height := h }

/-- Modelled from the spec: `Window::setTop` of the windowing framework (absent from
the sources), on the body: the geometry setter for the top edge. -/
def MenuBody.setTop (b : MenuBody) (y : Int) : MenuBody := { b with top := y }

/-- Modelled from the spec: `Window::setHeight` of the windowing framework (absent from
the sources), on the body: the geometry setter for the height. -/
def MenuBody.setHeight (b : MenuBody) (h : Int) : MenuBody := { b with height := h }

/-- Modelled from the spec: `Window::setInnerHeight` of the windowing framework (absent
from the sources), on the body: the content-height setter. -/
def MenuBody.setInnerHeight (b : MenuBody) (h : Int) : MenuBody := { b with innerHeight := h }

/-- The method `Menu::updatePosition()`. -/
def Menu.updatePosition (t : Theme) (m : Menu) : Menu :=
  let m1 : Menu :=
    if ¬ m.toolbar then
      let headerHeight : Int := if m.menuWindow.title.isEmpty then 0 else t.MENUS_HEADER_HEIGHT
      let bodyHeight : Int := limit t.MENUS_MIN_HEIGHT (m.contentHeight t) t.MENUS_MAX_HEIGHT
      let w1 := m.menuWindow.setTop
        (Int.tdiv (t.LCD_H - headerHeight - bodyHeight - t.MENUS_FOOTER_HEIGHT) 2
          + t.MENUS_OFFSET_TOP)
      let w2 := w1.setHeight (headerHeight + bodyHeight + t.MENUS_FOOTER_HEIGHT)
      let w3 := { w2 with body := w2.body.setTop headerHeight }
      let w4 := { w3 with body := w3.body.setHeight bodyHeight }
      { m with menuWindow := w4 }
    else m
  m1.setBody (m1.body.setInnerHeight (m1.contentHeight t))

/-- Modelled from the spec: `MenuWindow::setTitle` (defined in `menu.h`, absent from the
sources): sets the panel title. -/
def MenuWindow.setTitle (w : MenuWindow) (text : String) : MenuWindow :=
  { w with title := text }

/-- The method `Menu::setTitle(text)`. -/
def Menu.setTitle (t : Theme) (m : Menu) (text : String) : Menu :=
  Menu.updatePosition t { m with menuWindow := m.menuWindow.setTitle text }

/-- Modelled from the spec: `MenuBody::addLine` (defined in `menu.h`, absent from the
sources): appends a text line to the body. -/
def MenuBody.addLine (b : MenuBody) (text : String) (onPress : Option Callback) : MenuBody :=
  { b with lines := b.lines ++ [{ text := text, drawLine := none, onPress := onPress }] }

/-- Modelled from the spec: `MenuBody::addCustomLine` (defined in `menu.h`, absent
from the sources): appends a custom-painted line to the body. -/
def MenuBody.addCustomLine (b : MenuBody) (drawLine : Option Callback)
    (onPress : Option Callback) : MenuBody :=
  { b with lines := b.lines ++ [{ text := "", drawLine := drawLine, onPress := onPress }] }

/-- The method `Menu::addLine(text, onPress)`. -/
def Menu.addLine (t : Theme) (m : Menu) (text : String) (onPress : Option Callback) : Menu :=
  Menu.updatePosition t (m.setBody (m.body.addLine text onPress))

/-- The method `Menu::addCustomLine(drawLine, onPress)`. -/
def Menu.addCustomLine (t : Theme) (m : Menu) (drawLine : Option Callback)
    (onPress : Option Callback) : Menu :=
  Menu.updatePosition t (m.setBody (m.body.addCustomLine drawLine onPress))

/-- The method `Menu::onTouchEnd(coord_t x, coord_t y)` (`HARDWARE_TOUCH`).
`absorbed` is the value returned by the default dispatch `Window::onTouchEnd(x, y)` of
the windowing framework.  Returns the calls `Menu` makes itself and its result. -/
def Menu.onTouchEnd (absorbed : Bool) (_x _y : Int) : List Effect × Bool :=
  if ¬ absorbed then ([Effect.deleteLater], true) else ([], true)

/-- The method `Menu::onTouchSlide(...)` (`HARDWARE_TOUCH`).  `forwarded` is the value
returned by the default `Window::onTouchSlide`, which the code discards.  Returns the
calls `Menu` makes itself and its result. -/
def Menu.onTouchSlide (_forwarded : Bool) (_x _y _startX _startY _slideX _slideY : Int) :
    List Effect × Bool :=
  ([], true)

/-- Modelled from the spec: the state built by the constructors `Menu::Menu` and
`MenuWindow::MenuWindow` with the member initialisers of `menu.h` (absent from the
sources): no line, selection `0`, no cancel handler, no toolbar, no title, window
rectangle `{.., (LCD_H - MENUS_WIDTH) / 2, MENUS_WIDTH, 0}`, body rectangle
`{0, 0, width(), height()}`, inner height equal to the height, scroll offset `0`. -/
def Menu.fresh (t : Theme) : Menu :=
  { toolbar := false
    menuWindow :=
      { title := ""
        top := Int.tdiv (t.LCD_H - t.MENUS_WIDTH) 2
        height := 0
        body :=
          { lines := []
            selectedIndex := 0
            onCancel := none
            top := 0
            height := 0
            innerHeight := 0
            scrollPositionY := 0 } } }

/-! ## Specification-side definitions -/

/-- The value `x` clamped into `[lo, hi]`, as the specification words it. -/
def clampInto (lo hi x : Int) : Int :=
  if x < lo then lo else if hi < x then hi else x

/-- The data-model invariant of the specification: when the line list is non-empty,
`selectedIndex` is a valid index into it. -/
def MenuBody.SelectionValid (b : MenuBody) : Prop :=
  b.lines ≠ [] → 0 ≤ b.selectedIndex ∧ b.selectedIndex < (b.lines.length : Int)

instance (b : MenuBody) : Decidable b.SelectionValid := by
  unfold MenuBody.SelectionValid; exact inferInstance

/-- A sequence of `Menu::addLine` calls, one per `(text, onPress)` pair, in order. -/
def Menu.addLines (t : Theme) (m : Menu) : List (String × Option Callback) → Menu
  | [] => m
  | l :: ls => Menu.addLines t (Menu.addLine t m l.1 l.2) ls

/-- States a menu reaches from its construction through the "next" and "previous"
inputs, `addLine` and `addCustomLine`. -/
inductive Menu.Reachable (t : Theme) : Menu → Prop
  | fresh : Menu.Reachable t (Menu.fresh t)
  | next (m m1 : Menu) (tr : List Effect) :
      Menu.Reachable t m →
      MenuBody.onEvent t m Event.EVT_ROTARY_RIGHT = (tr, Outcome.ok m1) →
      Menu.Reachable t m1
  | previous (m m1 : Menu) (tr : List Effect) :
      Menu.Reachable t m →
      MenuBody.onEvent t m Event.EVT_ROTARY_LEFT = (tr, Outcome.ok m1) →
      Menu.Reachable t m1
  | addLine (m : Menu) (text : String) (onPress : Option Callback) :
      Menu.Reachable t m → Menu.Reachable t (Menu.addLine t m text onPress)
  | addCustomLine (m : Menu) (drawLine onPress : Option Callback) :
      Menu.Reachable t m → Menu.Reachable t (Menu.addCustomLine t m drawLine onPress)

/-! ## Concrete inputs -/

/-- A theme with line height `20` on a 272-line display. -/
def exTheme : Theme :=
  { LCD_H := 272, MENUS_WIDTH := 200, MENUS_LINE_HEIGHT := 20, MENUS_MIN_HEIGHT := 39,
    MENUS_MAX_HEIGHT := 199, MENUS_HEADER_HEIGHT := 30, MENUS_FOOTER_HEIGHT := 0,
    MENUS_OFFSET_TOP := 0 }

/-- The menu of the scenario: fresh, then lines "A", "B", "C"; selection `0`. -/
def exMenu3 : Menu :=
  Menu.addLine exTheme
    (Menu.addLine exTheme (Menu.addLine exTheme (Menu.fresh exTheme) "A" (some 1)) "B" (some 2))
    "C" (some 3)

/-- The scenario menu with line `index` selected. -/
def exMenu3At (index : Int) : Menu :=
  exMenu3.setBody { exMenu3.body with selectedIndex := index }

/-- A menu with the single line "A". -/
def exMenu1 : Menu := Menu.addLine exTheme (Menu.fresh exTheme) "A" (some 1)

/-- A menu with a single line whose `onPress` is an empty `std::function`. -/
def exMenuNoPress : Menu := Menu.addLine exTheme (Menu.fresh exTheme) "A" none

/-- The scenario menu with a cancel handler and a toolbar registered. -/
def exMenuCancel : Menu :=
  { exMenu3 with
    toolbar := true
    menuWindow := { exMenu3.menuWindow with body := { exMenu3.body with onCancel := some 9 } } }

/-- The scenario menu after `setTitle("Menu")`. -/
def exMenuTitled : Menu := Menu.setTitle exTheme exMenu3 "Menu"

/-- A menu with eleven lines: content height `219`, viewport height `199`. -/
def exMenu11 : Menu :=
  Menu.addLines exTheme (Menu.fresh exTheme) (List.replicate 11 ("L", some 1))

/-- The fresh menu after the "previous" input: no line, selection `-1`. -/
def exMenuEmptyPrev : Menu :=
  (Menu.fresh exTheme).setBody { (Menu.fresh exTheme).body with selectedIndex := -1 }

/-- The fresh menu after the "previous" input and one `addLine`. -/
def exMenuMinus : Menu := Menu.addLine exTheme exMenuEmptyPrev "A" (some 1)

/-! # Theorems -/

/-! ## Machine integer facts -/

theorem toInt_of_small (n : Nat) (h : n < 2147483648) : toInt n = (n : Int) := by
  unfold toInt SIZE_MOD
  have h1 : n % 4294967296 = n := Nat.mod_eq_of_lt (by omega)
  rw [h1, if_pos h]

theorem toSize_of_nonneg (x : Int) (h0 : 0 ≤ x) (h1 : x < 4294967296) :
    ((toSize x : Nat) : Int) = x := by
  unfold toSize SIZE_MOD
  have h2 : x % ((4294967296 : Nat) : Int) = x := Int.emod_eq_of_lt h0 (by simpa using h1)
  rw [h2, Int.toNat_of_nonneg h0]

theorem toInt_toSize (x : Int) (h : InIntRange x) : toInt (toSize x) = x := by
  unfold InIntRange INT_MIN INT_MAX at h
  unfold toInt toSize SIZE_MOD
  have hm : 0 ≤ x % ((4294967296 : Nat) : Int) := Int.emod_nonneg _ (by decide)
  have hlt : x % ((4294967296 : Nat) : Int) < 4294967296 := Int.emod_lt_of_pos _ (by decide)
  have hc : (((x % ((4294967296 : Nat) : Int)).toNat : Nat) : Int) = x % ((4294967296 : Nat) : Int) :=
    Int.toNat_of_nonneg hm
  split <;> omega

/-- The `size_t` expression `n * h - 1`, converted to `int`, is `n * h - 1` whenever
that value fits an `int`. -/
theorem toInt_sizeSub_sizeMul (n : Nat) (h : Int) (hr : InIntRange ((n : Int) * h - 1)) :
    toInt (sizeSub (sizeMul (n % SIZE_MOD) (toSize h)) 1) = (n : Int) * h - 1 := by
  have key : (((sizeSub (sizeMul (n % SIZE_MOD) (toSize h)) 1 : Nat) : Int))
      = ((n : Int) * h - 1) % 4294967296 := by
    unfold sizeSub sizeMul toSize SIZE_MOD
    have hm : 0 ≤ h % ((4294967296 : Nat) : Int) := Int.emod_nonneg _ (by decide)
    push_cast
    rw [Int.toNat_of_nonneg (by simpa using hm)]
    have e1 : ((n : Int) % 4294967296 * (h % 4294967296)) % 4294967296 = ((n : Int) * h) % 4294967296 :=
      (Int.mul_emod _ _ _).symm
    generalize hp : (n : Int) * h = p at *
    generalize hq : (n : Int) % 4294967296 * (h % 4294967296) = q at *
    omega
  unfold InIntRange INT_MIN INT_MAX at hr
  generalize sizeSub (sizeMul (n % SIZE_MOD) (toSize h)) 1 = k at key ⊢
  unfold toInt SIZE_MOD
  split <;> omega

/-- The index computed by the "next" input, `(selectedIndex + 1) % lines.size()`
converted to `int`, for a valid selection. -/
theorem next_index_eq (n : Nat) (i : Int) (h0 : 0 ≤ i) (h1 : i < (n : Int))
    (hfit : (n : Int) - 1 ≤ INT_MAX) :
    toInt (toSize (i + 1) % (n % SIZE_MOD)) = (i + 1) % (n : Int) := by
  unfold INT_MAX at hfit
  have hn : n % SIZE_MOD = n := Nat.mod_eq_of_lt (by unfold SIZE_MOD; omega)
  have hk : ((toSize (i + 1) : Nat) : Int) = i + 1 := toSize_of_nonneg _ (by omega) (by omega)
  have hnpos : 0 < n := by omega
  have hlt : toSize (i + 1) % n < n := Nat.mod_lt _ hnpos
  rw [hn, toInt_of_small _ (by omega)]
  push_cast
  rw [hk]

/-- The index computed by the "previous" input from index `0`, `lines.size() - 1`
converted to `int`. -/
theorem prev_index_zero_eq (n : Nat) (hfit : (n : Int) - 1 ≤ INT_MAX) (hpos : 0 < n) :
    toInt (sizeSub (n % SIZE_MOD) 1) = (n : Int) - 1 := by
  unfold INT_MAX at hfit
  unfold toInt sizeSub SIZE_MOD
  split <;> omega

/-- Without lines the "previous" input computes index `-1`. -/
theorem prev_index_empty_eq : toInt (sizeSub (0 % SIZE_MOD) 1) = -1 := by
  decide

theorem wrapInt_of_inRange (x : Int) (h : InIntRange x) : wrapInt x = x :=
  toInt_toSize x h

/-- The body after `select`, written as a record. -/
theorem select_state (t : Theme) (b : MenuBody) (i : Int) :
    (b.select t i).1 =
      (if b.innerHeight > b.height then
        { b with
          selectedIndex := i
          scrollPositionY :=
            intSub (intMul t.MENUS_LINE_HEIGHT i) (intMul 3 t.MENUS_LINE_HEIGHT) }
      else { b with selectedIndex := i }) := by
  unfold MenuBody.select MenuBody.setScrollPositionY
  rfl

theorem select_selectedIndex (t : Theme) (b : MenuBody) (i : Int) :
    (b.select t i).1.selectedIndex = i := by
  rw [select_state]
  generalize intSub (intMul t.MENUS_LINE_HEIGHT i) (intMul 3 t.MENUS_LINE_HEIGHT) = c
  split <;> rfl

theorem select_lines (t : Theme) (b : MenuBody) (i : Int) :
    (b.select t i).1.lines = b.lines := by
  rw [select_state]
  generalize intSub (intMul t.MENUS_LINE_HEIGHT i) (intMul 3 t.MENUS_LINE_HEIGHT) = c
  split <;> rfl

theorem select_trace (t : Theme) (b : MenuBody) (i : Int) :
    (b.select t i).2 = [Effect.invalidate] := rfl

theorem setBody_body (m : Menu) (b : MenuBody) : (m.setBody b).body = b := rfl

theorem size_eq_length (b : MenuBody) (hfit : (b.lines.length : Int) - 1 ≤ INT_MAX) :
    b.size = b.lines.length := by
  unfold INT_MAX at hfit
  unfold MenuBody.size SIZE_MOD
  omega

/-- Effect of the two rotary inputs on a valid selection. -/
theorem rotary_selection_lemma (t : Theme) (m : Menu)
    (hne : m.body.lines ≠ [])
    (hfit : (m.body.lines.length : Int) - 1 ≤ INT_MAX)
    (h0 : 0 ≤ m.body.selectedIndex)
    (h1 : m.body.selectedIndex < (m.body.lines.length : Int)) :
    (∃ m1, MenuBody.onEvent t m Event.EVT_ROTARY_RIGHT = ([Effect.invalidate], Outcome.ok m1)
        ∧ m1.body.selectedIndex = (m.body.selectedIndex + 1) % (m.body.lines.length : Int)
        ∧ (m.body.selectedIndex = (m.body.lines.length : Int) - 1 → m1.body.selectedIndex = 0)
        ∧ m1.body.lines = m.body.lines)
    ∧ (∃ m2, MenuBody.onEvent t m Event.EVT_ROTARY_LEFT = ([Effect.invalidate], Outcome.ok m2)
        ∧ m2.body.selectedIndex =
            (if m.body.selectedIndex = 0 then (m.body.lines.length : Int) - 1
             else m.body.selectedIndex - 1)
        ∧ (m.body.selectedIndex = 0 → m2.body.selectedIndex = (m.body.lines.length : Int) - 1)
        ∧ m2.body.lines = m.body.lines) := by
  have hpos : 0 < m.body.lines.length := List.length_pos.mpr hne
  have hsz : m.body.size ≠ 0 := by
    rw [size_eq_length _ hfit]; omega
  have hnext := next_index_eq m.body.lines.length m.body.selectedIndex h0 h1 hfit
  constructor
  · refine ⟨m.setBody (m.body.select t (toInt (toSize (m.body.selectedIndex + 1) % m.body.size))).1,
      ?_, ?_, ?_, ?_⟩
    · unfold MenuBody.onEvent
      simp only [if_true, if_neg hsz, select_trace]
    · rw [setBody_body, select_selectedIndex]
      exact hnext
    · intro hlast
      rw [setBody_body, select_selectedIndex]
      unfold MenuBody.size
      rw [hnext, hlast]
      simp
    · rw [setBody_body, select_lines]
  · by_cases hz : m.body.selectedIndex = 0
    · refine ⟨m.setBody (m.body.select t (toInt (sizeSub m.body.size 1))).1, ?_, ?_, ?_, ?_⟩
      · unfold MenuBody.onEvent
        simp [hz, select_trace]
      · rw [setBody_body, select_selectedIndex, if_pos hz]
        exact prev_index_zero_eq _ hfit hpos
      · intro _
        rw [setBody_body, select_selectedIndex]
        exact prev_index_zero_eq _ hfit hpos
      · rw [setBody_body, select_lines]
    · refine ⟨m.setBody (m.body.select t (toInt (toSize (m.body.selectedIndex - 1)))).1,
        ?_, ?_, ?_, ?_⟩
      · unfold MenuBody.onEvent
        simp [hz, select_trace]
      · rw [setBody_body, select_selectedIndex, if_neg hz]
        unfold INT_MAX at hfit
        exact toInt_toSize _ (by unfold InIntRange INT_MIN INT_MAX; omega)
      · intro h; exact absurd h hz
      · rw [setBody_body, select_lines]

/-- C1. With a non-empty line list of length `N` (whose last index fits an `int`) and a
valid selection `i`, the "next" input (`EVT_ROTARY_RIGHT`) completes and sets the
selection to `(i + 1) mod N`, hence to `0` from `N - 1`; the "previous" input
(`EVT_ROTARY_LEFT`) completes and sets it to `N - 1` when `i = 0` and to `i - 1`
otherwise.  Neither changes the lines. -/
theorem rotary_selection_circular (t : Theme) (m : Menu)
    (hne : m.body.lines ≠ [])
    (hfit : (m.body.lines.length : Int) - 1 ≤ INT_MAX)
    (h0 : 0 ≤ m.body.selectedIndex)
    (h1 : m.body.selectedIndex < (m.body.lines.length : Int)) :
    (∃ m1, MenuBody.onEvent t m Event.EVT_ROTARY_RIGHT = ([Effect.invalidate], Outcome.ok m1)
        ∧ m1.body.selectedIndex = (m.body.selectedIndex + 1) % (m.body.lines.length : Int)
        ∧ (m.body.selectedIndex = (m.body.lines.length : Int) - 1 → m1.body.selectedIndex = 0)
        ∧ m1.body.lines = m.body.lines)
    ∧ (∃ m2, MenuBody.onEvent t m Event.EVT_ROTARY_LEFT = ([Effect.invalidate], Outcome.ok m2)
        ∧ m2.body.selectedIndex =
            (if m.body.selectedIndex = 0 then (m.body.lines.length : Int) - 1
             else m.body.selectedIndex - 1)
        ∧ (m.body.selectedIndex = 0 → m2.body.selectedIndex = (m.body.lines.length : Int) - 1)
        ∧ m2.body.lines = m.body.lines) :=
  rotary_selection_lemma t m hne hfit h0 h1

theorem limit_eq_clampInto (lo x hi : Int) (h : lo ≤ hi) : limit lo x hi = clampInto lo hi x := by
  unfold limit clampInto
  split
  · rw [max_eq_left (by omega), min_eq_left h]
  · split
    · rw [max_eq_right (by omega), min_eq_right (by omega)]
    · rw [max_eq_right (by omega), min_eq_left (by omega)]

theorem contentHeight_eq (t : Theme) (m : Menu)
    (hr : InIntRange ((m.body.lines.length : Int) * t.MENUS_LINE_HEIGHT - 1)) :
    m.contentHeight t = (m.body.lines.length : Int) * t.MENUS_LINE_HEIGHT - 1 :=
  toInt_sizeSub_sizeMul _ _ hr

/-- Without a toolbar `updatePosition` recomputes the whole vertical geometry. -/
theorem updatePosition_noToolbar (t : Theme) (m : Menu) (hno : m.toolbar = false) :
    m.updatePosition t =
      { toolbar := m.toolbar
        menuWindow :=
          { title := m.menuWindow.title
            top := Int.tdiv
                (t.LCD_H - (if m.menuWindow.title.isEmpty then 0 else t.MENUS_HEADER_HEIGHT)
                  - limit t.MENUS_MIN_HEIGHT (m.contentHeight t) t.MENUS_MAX_HEIGHT
                  - t.MENUS_FOOTER_HEIGHT) 2
              + t.MENUS_OFFSET_TOP
            height := (if m.menuWindow.title.isEmpty then 0 else t.MENUS_HEADER_HEIGHT)
              + limit t.MENUS_MIN_HEIGHT (m.contentHeight t) t.MENUS_MAX_HEIGHT
              + t.MENUS_FOOTER_HEIGHT
            body :=
              { m.body with
                top := (if m.menuWindow.title.isEmpty then 0 else t.MENUS_HEADER_HEIGHT)
                height := limit t.MENUS_MIN_HEIGHT (m.contentHeight t) t.MENUS_MAX_HEIGHT
                innerHeight := m.contentHeight t } } } := by
  unfold Menu.updatePosition
  simp only [hno, Bool.false_eq_true, not_false_eq_true, if_true]
  rfl

/-- With a toolbar `updatePosition` only stores the inner content height. -/
theorem updatePosition_toolbar (t : Theme) (m : Menu) (htb : m.toolbar = true) :
    m.updatePosition t = m.setBody { m.body with innerHeight := m.contentHeight t } := by
  unfold Menu.updatePosition
  simp only [htb, not_true_eq_false, if_false]
  rfl

/-- The inner height stored by `updatePosition`, with or without a toolbar. -/
theorem updatePosition_stored_innerHeight (t : Theme) (m : Menu) :
    (m.updatePosition t).body.innerHeight = m.contentHeight t := by
  by_cases htb : m.toolbar = true
  · rw [updatePosition_toolbar t m htb]
    generalize m.contentHeight t = c
    rfl
  · rw [updatePosition_noToolbar t m (by simpa using htb)]
    generalize m.contentHeight t = c
    rfl

/-- C5. For every state and every index `i`, `select(i)` sets `selectedIndex` to `i`.
When `innerHeight` exceeds the viewport height, the scroll offset passed to the
scrolling surface is the `int` expression `lineHeight * i - 3 * lineHeight`; it is
the integer `lineHeight * i - 3 * lineHeight` whenever the products and the
difference fit an `int`.  When `innerHeight` does not exceed the viewport height the
scroll offset is left unchanged.  The lines and the geometry are untouched and one
redraw is requested. -/
theorem select_index_and_scroll (t : Theme) (b : MenuBody) (i : Int) :
    (b.select t i).1.selectedIndex = i
    ∧ (b.innerHeight > b.height →
        (b.select t i).1.scrollPositionY
          = intSub (intMul t.MENUS_LINE_HEIGHT i) (intMul 3 t.MENUS_LINE_HEIGHT))
    ∧ (b.innerHeight > b.height →
        InIntRange (t.MENUS_LINE_HEIGHT * i) →
        InIntRange (3 * t.MENUS_LINE_HEIGHT) →
        InIntRange (t.MENUS_LINE_HEIGHT * i - 3 * t.MENUS_LINE_HEIGHT) →
        (b.select t i).1.scrollPositionY
          = t.MENUS_LINE_HEIGHT * i - 3 * t.MENUS_LINE_HEIGHT)
    ∧ (¬ b.innerHeight > b.height → (b.select t i).1.scrollPositionY = b.scrollPositionY)
    ∧ (b.select t i).1.lines = b.lines
    ∧ (b.select t i).1.height = b.height
    ∧ (b.select t i).1.innerHeight = b.innerHeight
    ∧ (b.select t i).2 = [Effect.invalidate] := by
  have hs := select_state t b i
  refine ⟨select_selectedIndex t b i, ?_, ?_, ?_, select_lines t b i, ?_, ?_, rfl⟩
  · intro h
    rw [hs, if_pos h]
  · intro h h1 h2 h3
    rw [hs, if_pos h]
    show intSub (intMul t.MENUS_LINE_HEIGHT i) (intMul 3 t.MENUS_LINE_HEIGHT) = _
    unfold intSub intMul
    rw [wrapInt_of_inRange _ h1, wrapInt_of_inRange _ h2, wrapInt_of_inRange _ h3]
  · intro h
    rw [hs, if_neg h]
  · rw [hs]
    generalize intSub (intMul t.MENUS_LINE_HEIGHT i) (intMul 3 t.MENUS_LINE_HEIGHT) = c
    split <;> rfl
  · rw [hs]
    generalize intSub (intMul t.MENUS_LINE_HEIGHT i) (intMul 3 t.MENUS_LINE_HEIGHT) = c
    split <;> rfl

/-- C6. Without a toolbar, with `MENUS_MIN_HEIGHT ≤ MENUS_MAX_HEIGHT` and
`N * lineHeight - 1` fitting a `coord_t`, `updatePosition` sets: the body height to
`N * lineHeight - 1` clamped into `[MENUS_MIN_HEIGHT, MENUS_MAX_HEIGHT]`; the body
top to the header height `h` (`0` for an empty title, else `MENUS_HEADER_HEIGHT`);
the window height to `h + b + MENUS_FOOTER_HEIGHT`; the window top to
`(LCD_H - h - b - MENUS_FOOTER_HEIGHT) / 2 + MENUS_OFFSET_TOP` with truncating
division. -/
theorem updatePosition_centers (t : Theme) (m : Menu)
    (hno : m.toolbar = false)
    (hmm : t.MENUS_MIN_HEIGHT ≤ t.MENUS_MAX_HEIGHT)
    (hr : InIntRange ((m.body.lines.length : Int) * t.MENUS_LINE_HEIGHT - 1)) :
    (m.updatePosition t).body.height
        = clampInto t.MENUS_MIN_HEIGHT t.MENUS_MAX_HEIGHT
            ((m.body.lines.length : Int) * t.MENUS_LINE_HEIGHT - 1)
    ∧ (m.updatePosition t).body.top
        = (if m.menuWindow.title.isEmpty then 0 else t.MENUS_HEADER_HEIGHT)
    ∧ (m.updatePosition t).menuWindow.height
        = (if m.menuWindow.title.isEmpty then 0 else t.MENUS_HEADER_HEIGHT)
          + clampInto t.MENUS_MIN_HEIGHT t.MENUS_MAX_HEIGHT
              ((m.body.lines.length : Int) * t.MENUS_LINE_HEIGHT - 1)
          + t.MENUS_FOOTER_HEIGHT
    ∧ (m.updatePosition t).menuWindow.top
        = Int.tdiv
            (t.LCD_H - (if m.menuWindow.title.isEmpty then 0 else t.MENUS_HEADER_HEIGHT)
              - clampInto t.MENUS_MIN_HEIGHT t.MENUS_MAX_HEIGHT
                  ((m.body.lines.length : Int) * t.MENUS_LINE_HEIGHT - 1)
              - t.MENUS_FOOTER_HEIGHT) 2
          + t.MENUS_OFFSET_TOP := by
  have hc := contentHeight_eq t m hr
  have hl := limit_eq_clampInto t.MENUS_MIN_HEIGHT (m.contentHeight t) t.MENUS_MAX_HEIGHT hmm
  rw [hc] at hl
  rw [updatePosition_noToolbar t m hno, hc, hl]
  exact ⟨rfl, rfl, rfl, rfl⟩

/-- C7. With or without a toolbar, `updatePosition` sets the body's inner content
height to `N * lineHeight - 1` (when that value fits a `coord_t`), `-1` for the empty
list; with a toolbar this is its only change: the window's and the body's top and
height, like every other field, are left as they were. -/
theorem updatePosition_innerHeight (t : Theme) (m : Menu)
    (hr : InIntRange ((m.body.lines.length : Int) * t.MENUS_LINE_HEIGHT - 1)) :
    (m.updatePosition t).body.innerHeight
        = (m.body.lines.length : Int) * t.MENUS_LINE_HEIGHT - 1
    ∧ (m.body.lines = [] → (m.updatePosition t).body.innerHeight = -1)
    ∧ (m.toolbar = true →
        m.updatePosition t
            = m.setBody { m.body with
                innerHeight := (m.body.lines.length : Int) * t.MENUS_LINE_HEIGHT - 1 }
          ∧ (m.updatePosition t).menuWindow.top = m.menuWindow.top
          ∧ (m.updatePosition t).menuWindow.height = m.menuWindow.height
          ∧ (m.updatePosition t).body.top = m.body.top
          ∧ (m.updatePosition t).body.height = m.body.height) := by
  have hc := contentHeight_eq t m hr
  have hin := updatePosition_stored_innerHeight t m
  refine ⟨by rw [hin, hc], ?_, ?_⟩
  · intro he
    rw [hin, hc, he]
    simp
  · intro htb
    rw [updatePosition_toolbar t m htb, hc]
    exact ⟨rfl, rfl, rfl, rfl, rfl⟩

theorem menu_onEvent_enter (m : Menu) :
    Menu.onEvent m (Event.EVT_KEY_BREAK Key.KEY_ENTER) = [Effect.deleteLater] := by
  unfold Menu.onEvent
  simp

theorem menu_onEvent_exit (m : Menu) :
    Menu.onEvent m (Event.EVT_KEY_BREAK Key.KEY_EXIT) = [Effect.deleteLater] := by
  unfold Menu.onEvent
  simp

theorem lineAt_of_valid (b : MenuBody) (i : Int) (h0 : 0 ≤ i) (h1 : i < (b.lines.length : Int)) :
    ∃ line, b.lineAt i = some line ∧ b.lines.get? i.toNat = some line := by
  have hlt : i.toNat < b.lines.length := (Int.toNat_lt h0).mpr h1
  refine ⟨b.lines.get ⟨i.toNat, hlt⟩, ?_, List.get?_eq_get hlt⟩
  unfold MenuBody.lineAt
  rw [if_pos h0, List.get?_eq_get hlt]

theorem lineAt_of_invalid (b : MenuBody) (i : Int) (h : i < 0 ∨ (b.lines.length : Int) ≤ i) :
    b.lineAt i = none := by
  unfold MenuBody.lineAt
  split
  · rename_i h0
    apply List.get?_eq_none.mpr
    omega
  · rfl

/-- C2. With a non-empty line list and a valid selection `i`, the selected line exists
and the "activate" input (`EVT_KEY_BREAK(KEY_ENTER)`) makes exactly these calls, in
this order: the default window handling schedules the closure of the menu
(`deleteLater`), then `onPress` of line `i` (its target `cb`) is called, once; no
other line's `onPress` is called and the menu state is unchanged. -/
theorem activate_closes_then_presses (t : Theme) (m : Menu)
    (h0 : 0 ≤ m.body.selectedIndex)
    (h1 : m.body.selectedIndex < (m.body.lines.length : Int)) :
    ∃ line, m.body.lines.get? m.body.selectedIndex.toNat = some line
      ∧ Window.onEvent m (Event.EVT_KEY_BREAK Key.KEY_ENTER) = [Effect.deleteLater]
      ∧ ∀ cb, line.onPress = some cb →
          MenuBody.onEvent t m (Event.EVT_KEY_BREAK Key.KEY_ENTER)
            = ([Effect.deleteLater, Effect.onPress m.body.selectedIndex.toNat cb],
               Outcome.ok m) := by
  obtain ⟨line, hat, hget⟩ := lineAt_of_valid m.body _ h0 h1
  refine ⟨line, hget, menu_onEvent_enter m, ?_⟩
  intro cb hcb
  unfold MenuBody.onEvent
  simp [Window.onEvent, menu_onEvent_enter, hat, hcb]

/-- C3. With `N ≥ 1` lines, a positive line height and a tap at `0 ≤ y < N * lineHeight`,
the line of index `floor(y / lineHeight)` exists and `MenuBody::onTouchEnd` calls the
`onPress` of exactly that line (its target `cb`), once, calls nothing else, and
returns `false`, the "close the menu" signal. -/
theorem touch_tap_presses_line (t : Theme) (b : MenuBody) (x y : Int)
    (hh : 0 < t.MENUS_LINE_HEIGHT)
    (hy0 : 0 ≤ y)
    (hy1 : y < (b.lines.length : Int) * t.MENUS_LINE_HEIGHT) :
    0 ≤ y / t.MENUS_LINE_HEIGHT
      ∧ y / t.MENUS_LINE_HEIGHT < (b.lines.length : Int)
      ∧ ∃ line, b.lines.get? (y / t.MENUS_LINE_HEIGHT).toNat = some line
          ∧ ∀ cb, line.onPress = some cb →
              MenuBody.onTouchEnd t b x y
                = ([Effect.onPress (y / t.MENUS_LINE_HEIGHT).toNat cb], Outcome.ok false) := by
  have hd0 : 0 ≤ y / t.MENUS_LINE_HEIGHT := Int.ediv_nonneg hy0 (le_of_lt hh)
  have hd1 : y / t.MENUS_LINE_HEIGHT < (b.lines.length : Int) := Int.ediv_lt_of_lt_mul hh hy1
  have htd : Int.tdiv y t.MENUS_LINE_HEIGHT = y / t.MENUS_LINE_HEIGHT :=
    Int.tdiv_eq_ediv hy0 (le_of_lt hh)
  obtain ⟨line, hat, hget⟩ := lineAt_of_valid b _ hd0 hd1
  refine ⟨hd0, hd1, line, hget, ?_⟩
  intro cb hcb
  unfold MenuBody.onTouchEnd
  simp [ne_of_gt hh, htd, hat, hcb]

/-- A tap whose row lies at or below the end of the line list makes
`MenuBody::onTouchEnd` read `lines[index]` out of bounds. -/
theorem touch_tap_outside_fails (t : Theme) (b : MenuBody) (x y : Int)
    (hh : 0 < t.MENUS_LINE_HEIGHT)
    (hy : (b.lines.length : Int) * t.MENUS_LINE_HEIGHT ≤ y) :
    MenuBody.onTouchEnd t b x y = ([], Outcome.fail Failure.outOfBounds) := by
  have hy0 : 0 ≤ y := le_trans (Int.mul_nonneg (Int.ofNat_nonneg _) (le_of_lt hh)) hy
  have htd : Int.tdiv y t.MENUS_LINE_HEIGHT = y / t.MENUS_LINE_HEIGHT :=
    Int.tdiv_eq_ediv hy0 (le_of_lt hh)
  have hge : (b.lines.length : Int) ≤ y / t.MENUS_LINE_HEIGHT :=
    (Int.le_ediv_iff_mul_le hh).mpr hy
  unfold MenuBody.onTouchEnd
  simp [ne_of_gt hh, htd, lineAt_of_invalid b _ (Or.inr hge)]

/-- C4. The failing input: a menu whose only line is "A" (line height `20`, body height
`39`), tapped at `y = 25`, inside the body and below the line.  `MenuBody::onTouchEnd`
computes index `1` and reads `lines[1]` of a one-element vector; the same happens
for a tap at `y = 0` on a body without lines. -/
theorem touch_tap_below_last_line_out_of_bounds :
    exMenu1.body.lines.length = 1
      ∧ exMenu1.body.height = 39
      ∧ MenuBody.onTouchEnd exTheme exMenu1.body 0 25 = ([], Outcome.fail Failure.outOfBounds)
      ∧ MenuBody.onTouchEnd exTheme (Menu.fresh exTheme).body 0 0
          = ([], Outcome.fail Failure.outOfBounds) := by
  decide

/-- C9 as stated fails: the only line of `exMenuNoPress` has no `onPress`; the "activate"
input on it schedules the closure and then fails in the call of the empty
`std::function`, and a touch tap on it fails in the same call. -/
theorem absent_onPress_call_fails :
    exMenuNoPress.body.lineAt 0 = some { text := "A", drawLine := none, onPress := none }
      ∧ exMenuNoPress.body.selectedIndex = 0
      ∧ MenuBody.onEvent exTheme exMenuNoPress (Event.EVT_KEY_BREAK Key.KEY_ENTER)
          = ([Effect.deleteLater], Outcome.fail Failure.badFunctionCall)
      ∧ MenuBody.onTouchEnd exTheme exMenuNoPress.body 0 5
          = ([], Outcome.fail Failure.badFunctionCall) := by
  decide

/-- C9, amended. The "cancel" input calls `onCancel` exactly once when it is set and
calls no callback when it is absent, and in both cases then propagates to the default
window handling (which schedules the closure) and completes.  `onPress` is called
without such a check: the "activate" input or a touch tap on a line whose `onPress`
is absent calls no callback and ends in the failure of calling an empty
`std::function`. -/
theorem cancel_guarded_onPress_unguarded (t : Theme) (m : Menu) :
    (∀ cb, m.body.onCancel = some cb →
        MenuBody.onEvent t m (Event.EVT_KEY_BREAK Key.KEY_EXIT)
          = ([Effect.onCancel cb] ++ Window.onEvent m (Event.EVT_KEY_BREAK Key.KEY_EXIT),
             Outcome.ok m))
      ∧ (m.body.onCancel = none →
          MenuBody.onEvent t m (Event.EVT_KEY_BREAK Key.KEY_EXIT)
            = (Window.onEvent m (Event.EVT_KEY_BREAK Key.KEY_EXIT), Outcome.ok m))
      ∧ Window.onEvent m (Event.EVT_KEY_BREAK Key.KEY_EXIT) = [Effect.deleteLater]
      ∧ (∀ line, m.body.lineAt m.body.selectedIndex = some line → line.onPress = none →
          MenuBody.onEvent t m (Event.EVT_KEY_BREAK Key.KEY_ENTER)
            = ([Effect.deleteLater], Outcome.fail Failure.badFunctionCall))
      ∧ (∀ x y line, t.MENUS_LINE_HEIGHT ≠ 0 →
          m.body.lineAt (Int.tdiv y t.MENUS_LINE_HEIGHT) = some line → line.onPress = none →
          MenuBody.onTouchEnd t m.body x y = ([], Outcome.fail Failure.badFunctionCall)) := by
  refine ⟨?_, ?_, menu_onEvent_exit m, ?_, ?_⟩
  · intro cb hcb
    unfold MenuBody.onEvent
    simp [hcb]
  · intro hnone
    unfold MenuBody.onEvent
    simp [hnone]
  · intro line hat hp
    unfold MenuBody.onEvent
    simp [Window.onEvent, menu_onEvent_enter, hat, hp]
  · intro x y line hh hat hp
    unfold MenuBody.onTouchEnd
    simp [hh, hat, hp]

/-- C10. `Menu::onEvent` schedules the deferred destruction exactly on the cancel and
activate inputs; it forwards an event to the toolbar exactly when one is registered
and the event is a page-navigation input, and then schedules nothing; on every other
key event it does nothing.  `Menu::onTouchEnd` schedules the destruction exactly when
the default dispatch reports the tap as not absorbed; `Menu::onTouchEnd` and
`Menu::onTouchSlide` always return `true`, and a slide schedules nothing. -/
theorem menu_destruction_schedule (m : Menu) (event : Event) (absorbed forwarded : Bool)
    (x y startX startY slideX slideY : Int) :
    (Effect.deleteLater ∈ Menu.onEvent m event ↔
        (event = Event.EVT_KEY_BREAK Key.KEY_EXIT ∨ event = Event.EVT_KEY_BREAK Key.KEY_ENTER))
      ∧ (Menu.onEvent m event = [Effect.toolbarOnEvent event] ↔
          (m.toolbar = true ∧
            (event = Event.EVT_KEY_BREAK Key.KEY_PGDN ∨ event = Event.EVT_KEY_LONG Key.KEY_PGDN)))
      ∧ ((∃ e, Effect.toolbarOnEvent e ∈ Menu.onEvent m event) ↔
          (m.toolbar = true ∧
            (event = Event.EVT_KEY_BREAK Key.KEY_PGDN ∨ event = Event.EVT_KEY_LONG Key.KEY_PGDN)))
      ∧ (Menu.onEvent m event = [Effect.deleteLater] ↔
          (event = Event.EVT_KEY_BREAK Key.KEY_EXIT ∨ event = Event.EVT_KEY_BREAK Key.KEY_ENTER))
      ∧ (Menu.onEvent m event = [] ↔
          (¬ (event = Event.EVT_KEY_BREAK Key.KEY_EXIT ∨ event = Event.EVT_KEY_BREAK Key.KEY_ENTER)
            ∧ ¬ (m.toolbar = true ∧
              (event = Event.EVT_KEY_BREAK Key.KEY_PGDN ∨ event = Event.EVT_KEY_LONG Key.KEY_PGDN))))
      ∧ (Effect.deleteLater ∈ (Menu.onTouchEnd absorbed x y).1 ↔ absorbed = false)
      ∧ (Menu.onTouchEnd absorbed x y).1 = (if absorbed then [] else [Effect.deleteLater])
      ∧ (Menu.onTouchEnd absorbed x y).2 = true
      ∧ (Menu.onTouchSlide forwarded x y startX startY slideX slideY).1 = []
      ∧ (Menu.onTouchSlide forwarded x y startX startY slideX slideY).2 = true := by
  have hev : Menu.onEvent m event =
      if m.toolbar = true ∧
          (event = Event.EVT_KEY_BREAK Key.KEY_PGDN ∨ event = Event.EVT_KEY_LONG Key.KEY_PGDN) then
        [Effect.toolbarOnEvent event]
      else if event = Event.EVT_KEY_BREAK Key.KEY_EXIT ∨ event = Event.EVT_KEY_BREAK Key.KEY_ENTER then
        [Effect.deleteLater]
      else [] := rfl
  have hdis : (event = Event.EVT_KEY_BREAK Key.KEY_PGDN ∨ event = Event.EVT_KEY_LONG Key.KEY_PGDN) →
      ¬ (event = Event.EVT_KEY_BREAK Key.KEY_EXIT ∨ event = Event.EVT_KEY_BREAK Key.KEY_ENTER) := by
    rintro (h | h) <;> subst h <;> simp
  refine ⟨?_, ?_, ?_, ?_, ?_, ?_, ?_, ?_, rfl, rfl⟩
  · rw [hev]
    by_cases hp : m.toolbar = true ∧
        (event = Event.EVT_KEY_BREAK Key.KEY_PGDN ∨ event = Event.EVT_KEY_LONG Key.KEY_PGDN)
    · rw [if_pos hp]
      have := hdis hp.2
      simp [this]
    · rw [if_neg hp]
      by_cases hx : event = Event.EVT_KEY_BREAK Key.KEY_EXIT ∨ event = Event.EVT_KEY_BREAK Key.KEY_ENTER
      · simp [hx]
      · simp [hx]
  · rw [hev]
    by_cases hp : m.toolbar = true ∧
        (event = Event.EVT_KEY_BREAK Key.KEY_PGDN ∨ event = Event.EVT_KEY_LONG Key.KEY_PGDN)
    · simp [hp]
    · rw [if_neg hp]
      by_cases hx : event = Event.EVT_KEY_BREAK Key.KEY_EXIT ∨ event = Event.EVT_KEY_BREAK Key.KEY_ENTER
      · simp [hx, hp]
      · simp [hx, hp]
  · rw [hev]
    by_cases hp : m.toolbar = true ∧
        (event = Event.EVT_KEY_BREAK Key.KEY_PGDN ∨ event = Event.EVT_KEY_LONG Key.KEY_PGDN)
    · simp [hp]
    · rw [if_neg hp]
      by_cases hx : event = Event.EVT_KEY_BREAK Key.KEY_EXIT ∨ event = Event.EVT_KEY_BREAK Key.KEY_ENTER
      · simp [hx, hp]
      · simp [hx, hp]
  · rw [hev]
    by_cases hp : m.toolbar = true ∧
        (event = Event.EVT_KEY_BREAK Key.KEY_PGDN ∨ event = Event.EVT_KEY_LONG Key.KEY_PGDN)
    · rw [if_pos hp]
      have := hdis hp.2
      simp [this]
    · rw [if_neg hp]
      by_cases hx : event = Event.EVT_KEY_BREAK Key.KEY_EXIT ∨ event = Event.EVT_KEY_BREAK Key.KEY_ENTER
      · simp [hx]
      · simp [hx]
  · rw [hev]
    by_cases hp : m.toolbar = true ∧
        (event = Event.EVT_KEY_BREAK Key.KEY_PGDN ∨ event = Event.EVT_KEY_LONG Key.KEY_PGDN)
    · simp [hp]
    · rw [if_neg hp]
      by_cases hx : event = Event.EVT_KEY_BREAK Key.KEY_EXIT ∨ event = Event.EVT_KEY_BREAK Key.KEY_ENTER
      · simp [hx]
      · simp [hx, hp]
  · cases absorbed <;> simp [Menu.onTouchEnd]
  · cases absorbed <;> simp [Menu.onTouchEnd]
  · cases absorbed <;> simp [Menu.onTouchEnd]

theorem setBody_innerHeight_frame (m : Menu) (x : Int) :
    (m.setBody { m.body with innerHeight := x }).body.lines = m.body.lines
      ∧ (m.setBody { m.body with innerHeight := x }).body.selectedIndex = m.body.selectedIndex
      ∧ (m.setBody { m.body with innerHeight := x }).body.scrollPositionY
          = m.body.scrollPositionY :=
  ⟨rfl, rfl, rfl⟩

theorem updatePosition_body (t : Theme) (m : Menu) :
    (m.updatePosition t).body.lines = m.body.lines
      ∧ (m.updatePosition t).body.selectedIndex = m.body.selectedIndex
      ∧ (m.updatePosition t).body.scrollPositionY = m.body.scrollPositionY := by
  by_cases htb : m.toolbar = true
  · rw [updatePosition_toolbar t m htb]
    exact setBody_innerHeight_frame m _
  · rw [updatePosition_noToolbar t m (by simpa using htb)]
    exact ⟨rfl, rfl, rfl⟩
theorem addLine_body (t : Theme) (m : Menu) (text : String) (onPress : Option Callback) :
    (m.addLine t text onPress).body.lines
        = m.body.lines ++ [{ text := text, drawLine := none, onPress := onPress }]
      ∧ (m.addLine t text onPress).body.selectedIndex = m.body.selectedIndex
      ∧ (m.addLine t text onPress).body.scrollPositionY = m.body.scrollPositionY := by
  unfold Menu.addLine
  obtain ⟨h1, h2, h3⟩ := updatePosition_body t (m.setBody (m.body.addLine text onPress))
  rw [h1, h2, h3]
  exact ⟨rfl, rfl, rfl⟩

theorem addCustomLine_body (t : Theme) (m : Menu) (drawLine onPress : Option Callback) :
    (m.addCustomLine t drawLine onPress).body.lines
        = m.body.lines ++ [{ text := "", drawLine := drawLine, onPress := onPress }]
      ∧ (m.addCustomLine t drawLine onPress).body.selectedIndex = m.body.selectedIndex
      ∧ (m.addCustomLine t drawLine onPress).body.scrollPositionY = m.body.scrollPositionY := by
  unfold Menu.addCustomLine
  obtain ⟨h1, h2, h3⟩ := updatePosition_body t (m.setBody (m.body.addCustomLine drawLine onPress))
  rw [h1, h2, h3]
  exact ⟨rfl, rfl, rfl⟩

theorem selectionValid_append (b : MenuBody) (lines : List MenuLine) (sel : Int)
    (hl : b.lines = lines) (hs : b.selectedIndex = sel) (hne : lines ≠ []) :
    b.SelectionValid ↔ (0 ≤ sel ∧ sel < (lines.length : Int)) := by
  unfold MenuBody.SelectionValid
  rw [hl, hs]
  exact ⟨fun h => h hne, fun h _ => h⟩

/-- On a body without lines the "next" input evaluates `(selectedIndex + 1) % 0`. -/
theorem next_on_empty_list (t : Theme) (m : Menu) (he : m.body.lines = []) :
    MenuBody.onEvent t m Event.EVT_ROTARY_RIGHT
      = ([], Outcome.fail Failure.divisionByZero) := by
  have hsz : m.body.size = 0 := by
    unfold MenuBody.size
    rw [he]
    rfl
  unfold MenuBody.onEvent
  simp only [if_true, if_pos hsz]

/-- On a body without lines and with selection `0` the "previous" input computes
`lines.size() - 1` in `size_t` and stores `-1`; the list stays empty. -/
theorem previous_on_empty_list (t : Theme) (m : Menu) (he : m.body.lines = [])
    (hs : m.body.selectedIndex = 0) :
    ∃ m1, MenuBody.onEvent t m Event.EVT_ROTARY_LEFT = ([Effect.invalidate], Outcome.ok m1)
      ∧ m1.body.selectedIndex = -1
      ∧ m1.body.lines = [] := by
  have hsz : m.body.size = 0 := by
    unfold MenuBody.size
    rw [he]
    rfl
  refine ⟨m.setBody (m.body.select t (toInt (sizeSub m.body.size 1))).1, ?_, ?_, ?_⟩
  · unfold MenuBody.onEvent
    simp [hs, select_trace]
  · rw [setBody_body, select_selectedIndex, hsz]
    decide
  · rw [setBody_body, select_lines, he]

/-- C8. The failing input: a freshly built menu, which has no line.  The "next" input
divides by `lines.size() = 0`.  The "previous" input stores `selectedIndex = -1`, and
after one `addLine` the menu has one line and `selectedIndex = -1`: the invariant
fails in a state reached through the operations it is stated for, and "activate"
there reads `lines[-1]`. -/
theorem empty_list_rotary_breaks_selection :
    (Menu.fresh exTheme).body.lines = []
      ∧ (Menu.fresh exTheme).body.SelectionValid
      ∧ MenuBody.onEvent exTheme (Menu.fresh exTheme) Event.EVT_ROTARY_RIGHT
          = ([], Outcome.fail Failure.divisionByZero)
      ∧ MenuBody.onEvent exTheme (Menu.fresh exTheme) Event.EVT_ROTARY_LEFT
          = ([Effect.invalidate], Outcome.ok exMenuEmptyPrev)
      ∧ exMenuEmptyPrev.body.selectedIndex = -1
      ∧ Menu.Reachable exTheme exMenuMinus
      ∧ exMenuMinus.body.lines.length = 1
      ∧ exMenuMinus.body.selectedIndex = -1
      ∧ ¬ exMenuMinus.body.SelectionValid
      ∧ MenuBody.onEvent exTheme exMenuMinus (Event.EVT_KEY_BREAK Key.KEY_ENTER)
          = ([Effect.deleteLater], Outcome.fail Failure.outOfBounds) := by
  have hprev : MenuBody.onEvent exTheme (Menu.fresh exTheme) Event.EVT_ROTARY_LEFT
      = ([Effect.invalidate], Outcome.ok exMenuEmptyPrev) := by decide
  refine ⟨rfl, by decide, by decide, hprev, by decide, ?_, by decide, by decide, by decide,
    by decide⟩
  exact Menu.Reachable.addLine _ _ _ (Menu.Reachable.previous _ _ _ Menu.Reachable.fresh hprev)

/-- Where the invariant is kept: it holds for a freshly built menu; on a non-empty
list (whose last index fits an `int`) the "next" and "previous" inputs complete and
preserve it; `addLine` and `addCustomLine` preserve it on a non-empty list, and in
general establish it exactly when the prior `selectedIndex` is a valid index of the
extended list. -/
theorem selection_valid_on_nonempty (t : Theme) :
    (Menu.fresh t).body.SelectionValid
      ∧ (∀ m : Menu, m.body.SelectionValid → m.body.lines ≠ [] →
          (m.body.lines.length : Int) - 1 ≤ INT_MAX →
          (∃ m1, MenuBody.onEvent t m Event.EVT_ROTARY_RIGHT
                = ([Effect.invalidate], Outcome.ok m1) ∧ m1.body.SelectionValid)
            ∧ (∃ m2, MenuBody.onEvent t m Event.EVT_ROTARY_LEFT
                = ([Effect.invalidate], Outcome.ok m2) ∧ m2.body.SelectionValid))
      ∧ (∀ (m : Menu) (text : String) (onPress : Option Callback),
          (m.body.SelectionValid → m.body.lines ≠ [] →
              (m.addLine t text onPress).body.SelectionValid)
            ∧ ((m.addLine t text onPress).body.SelectionValid ↔
                (0 ≤ m.body.selectedIndex
                  ∧ m.body.selectedIndex < (m.body.lines.length : Int) + 1)))
      ∧ (∀ (m : Menu) (drawLine onPress : Option Callback),
          (m.body.SelectionValid → m.body.lines ≠ [] →
              (m.addCustomLine t drawLine onPress).body.SelectionValid)
            ∧ ((m.addCustomLine t drawLine onPress).body.SelectionValid ↔
                (0 ≤ m.body.selectedIndex
                  ∧ m.body.selectedIndex < (m.body.lines.length : Int) + 1))) := by
  refine ⟨?_, ?_, ?_, ?_⟩
  · intro h
    exact absurd rfl h
  · intro m hv hne hfit
    obtain ⟨h0, h1⟩ := hv hne
    have hpos : 0 < m.body.lines.length := List.length_pos.mpr hne
    obtain ⟨⟨m1, e1, s1, _, l1⟩, ⟨m2, e2, s2, _, l2⟩⟩ :=
      rotary_selection_lemma t m hne hfit h0 h1
    refine ⟨⟨m1, e1, ?_⟩, ⟨m2, e2, ?_⟩⟩
    · intro _
      rw [s1, l1]
      exact ⟨Int.emod_nonneg _ (by omega), Int.emod_lt_of_pos _ (by omega)⟩
    · intro _
      rw [s2, l2]
      split <;> omega
  · intro m text onPress
    obtain ⟨g1, g2, _⟩ := addLine_body t m text onPress
    have hiff := selectionValid_append (m.addLine t text onPress).body _ _ g1 g2 (by simp)
    rw [List.length_append, List.length_singleton] at hiff
    push_cast at hiff
    refine ⟨?_, hiff⟩
    intro hv hne
    obtain ⟨h0, h1⟩ := hv hne
    exact hiff.mpr ⟨h0, by omega⟩
  · intro m drawLine onPress
    obtain ⟨g1, g2, _⟩ := addCustomLine_body t m drawLine onPress
    have hiff := selectionValid_append (m.addCustomLine t drawLine onPress).body _ _ g1 g2 (by simp)
    rw [List.length_append, List.length_singleton] at hiff
    push_cast at hiff
    refine ⟨?_, hiff⟩
    intro hv hne
    obtain ⟨h0, h1⟩ := hv hne
    exact hiff.mpr ⟨h0, by omega⟩

/-! ## The theorems at concrete inputs -/

/-- The scenario of C1: three lines, line height `20`; "next" moves the selection
`0 → 1 → 2 → 0`, and "previous" from `0` moves it to `2`. -/
theorem rotary_selection_circular_scenario :
    (exMenu3.body.lines ≠ []
        ∧ (exMenu3.body.lines.length : Int) - 1 ≤ INT_MAX
        ∧ 0 ≤ exMenu3.body.selectedIndex
        ∧ exMenu3.body.selectedIndex < (exMenu3.body.lines.length : Int))
      ∧ (∃ m1, MenuBody.onEvent exTheme exMenu3 Event.EVT_ROTARY_RIGHT
            = ([Effect.invalidate], Outcome.ok m1) ∧ m1.body.selectedIndex = 1)
      ∧ (∃ m1, MenuBody.onEvent exTheme (exMenu3At 1) Event.EVT_ROTARY_RIGHT
            = ([Effect.invalidate], Outcome.ok m1) ∧ m1.body.selectedIndex = 2)
      ∧ (∃ m1, MenuBody.onEvent exTheme (exMenu3At 2) Event.EVT_ROTARY_RIGHT
            = ([Effect.invalidate], Outcome.ok m1) ∧ m1.body.selectedIndex = 0)
      ∧ (∃ m2, MenuBody.onEvent exTheme exMenu3 Event.EVT_ROTARY_LEFT
            = ([Effect.invalidate], Outcome.ok m2) ∧ m2.body.selectedIndex = 2) := by
  obtain ⟨⟨a, ea, sa, _⟩, ⟨d, ed, sd, _⟩⟩ :=
    rotary_selection_circular exTheme exMenu3 (by decide) (by decide) (by decide) (by decide)
  obtain ⟨⟨b, eb, sb, _⟩, _⟩ :=
    rotary_selection_circular exTheme (exMenu3At 1) (by decide) (by decide) (by decide)
      (by decide)
  obtain ⟨⟨c, ec, _, sc, _⟩, _⟩ :=
    rotary_selection_circular exTheme (exMenu3At 2) (by decide) (by decide) (by decide)
      (by decide)
  refine ⟨⟨by decide, by decide, by decide, by decide⟩, ⟨a, ea, ?_⟩, ⟨b, eb, ?_⟩,
    ⟨c, ec, sc (by decide)⟩, ⟨d, ed, ?_⟩⟩
  · rw [sa]; decide
  · rw [sb]; decide
  · rw [sd]; decide

/-- C2 at the scenario menu with line "B" selected: the closure is scheduled, then
`onPress` of line `1` runs. -/
theorem activate_closes_then_presses_scenario :
    (0 ≤ (exMenu3At 1).body.selectedIndex
        ∧ (exMenu3At 1).body.selectedIndex < ((exMenu3At 1).body.lines.length : Int))
      ∧ MenuBody.onEvent exTheme (exMenu3At 1) (Event.EVT_KEY_BREAK Key.KEY_ENTER)
          = ([Effect.deleteLater, Effect.onPress 1 2], Outcome.ok (exMenu3At 1)) := by
  obtain ⟨line, hget, _, hcall⟩ :=
    activate_closes_then_presses exTheme (exMenu3At 1) (by decide) (by decide)
  have hline : line = { text := "B", drawLine := none, onPress := some 2 } := by
    have h : (exMenu3At 1).body.lines.get? (exMenu3At 1).body.selectedIndex.toNat
        = some { text := "B", drawLine := none, onPress := some 2 } := by decide
    rw [h] at hget
    exact (Option.some.inj hget).symm
  exact ⟨⟨by decide, by decide⟩, hcall 2 (by rw [hline])⟩

/-- C3 at the scenario menu: a tap at `y = 45` presses line `2`, and closes. -/
theorem touch_tap_presses_line_scenario :
    (0 < exTheme.MENUS_LINE_HEIGHT ∧ (0 : Int) ≤ 45
        ∧ (45 : Int) < (exMenu3.body.lines.length : Int) * exTheme.MENUS_LINE_HEIGHT)
      ∧ MenuBody.onTouchEnd exTheme exMenu3.body 7 45
          = ([Effect.onPress 2 3], Outcome.ok false) := by
  obtain ⟨_, _, line, hget, hcall⟩ :=
    touch_tap_presses_line exTheme exMenu3.body 7 45 (by decide) (by decide) (by decide)
  have hline : line = { text := "C", drawLine := none, onPress := some 3 } := by
    have h : exMenu3.body.lines.get? ((45 : Int) / exTheme.MENUS_LINE_HEIGHT).toNat
        = some { text := "C", drawLine := none, onPress := some 3 } := by decide
    rw [h] at hget
    exact (Option.some.inj hget).symm
  exact ⟨⟨by decide, by decide, by decide⟩, hcall 3 (by rw [hline])⟩

/-- C6 at the titled scenario menu: header `30`, body `59`, window height `89` and
top `(272 - 30 - 59 - 0) / 2 + 0 = 91`. -/
theorem updatePosition_centers_scenario :
    (exMenuTitled.toolbar = false
        ∧ exTheme.MENUS_MIN_HEIGHT ≤ exTheme.MENUS_MAX_HEIGHT
        ∧ InIntRange ((exMenuTitled.body.lines.length : Int) * exTheme.MENUS_LINE_HEIGHT - 1))
      ∧ (exMenuTitled.updatePosition exTheme).body.height = 59
      ∧ (exMenuTitled.updatePosition exTheme).body.top = 30
      ∧ (exMenuTitled.updatePosition exTheme).menuWindow.height = 89
      ∧ (exMenuTitled.updatePosition exTheme).menuWindow.top = 91 := by
  obtain ⟨h1, h2, h3, h4⟩ :=
    updatePosition_centers exTheme exMenuTitled (by decide) (by decide) (by decide)
  refine ⟨⟨by decide, by decide, by decide⟩, ?_, ?_, ?_, ?_⟩
  · rw [h1]; decide
  · rw [h2]; decide
  · rw [h3]; decide
  · rw [h4]; decide

/-- C7 at a menu with a toolbar (inner height `59`, geometry kept) and at the empty
fresh menu (inner height `-1`). -/
theorem updatePosition_innerHeight_scenario :
    (InIntRange ((exMenuCancel.body.lines.length : Int) * exTheme.MENUS_LINE_HEIGHT - 1)
        ∧ exMenuCancel.toolbar = true)
      ∧ (exMenuCancel.updatePosition exTheme).body.innerHeight = 59
      ∧ (exMenuCancel.updatePosition exTheme).menuWindow.top = exMenuCancel.menuWindow.top
      ∧ (exMenuCancel.updatePosition exTheme).menuWindow.height = exMenuCancel.menuWindow.height
      ∧ (exMenuCancel.updatePosition exTheme).body.top = exMenuCancel.body.top
      ∧ (exMenuCancel.updatePosition exTheme).body.height = exMenuCancel.body.height
      ∧ ((Menu.fresh exTheme).updatePosition exTheme).body.innerHeight = -1 := by
  obtain ⟨h1, _, h3⟩ := updatePosition_innerHeight exTheme exMenuCancel (by decide)
  obtain ⟨_, g2, _⟩ := updatePosition_innerHeight exTheme (Menu.fresh exTheme) (by decide)
  obtain ⟨_, k1, k2, k3, k4⟩ := h3 (by decide)
  refine ⟨⟨by decide, by decide⟩, ?_, k1, k2, k3, k4, g2 rfl⟩
  rw [h1]; decide

/-- C9 at the scenario menu with a cancel handler and a toolbar: `onCancel` runs once,
then the closure is scheduled; without a handler only the closure is scheduled. -/
theorem cancel_guarded_scenario :
    MenuBody.onEvent exTheme exMenuCancel (Event.EVT_KEY_BREAK Key.KEY_EXIT)
        = ([Effect.onCancel 9, Effect.deleteLater], Outcome.ok exMenuCancel)
      ∧ MenuBody.onEvent exTheme exMenu3 (Event.EVT_KEY_BREAK Key.KEY_EXIT)
        = ([Effect.deleteLater], Outcome.ok exMenu3) := by
  obtain ⟨h1, _, h3, _, _⟩ := cancel_guarded_onPress_unguarded exTheme exMenuCancel
  obtain ⟨_, g2, g3, _, _⟩ := cancel_guarded_onPress_unguarded exTheme exMenu3
  have e1 := h1 9 (by decide)
  have e2 := g2 (by decide)
  rw [h3] at e1
  rw [g3] at e2
  exact ⟨e1, e2⟩

/-- C10 at concrete events: with a toolbar the page-down key goes to the toolbar and
schedules nothing; enter schedules the destruction; an absorbed tap does not. -/
theorem menu_destruction_schedule_scenario :
    Menu.onEvent exMenuCancel (Event.EVT_KEY_BREAK Key.KEY_PGDN)
        = [Effect.toolbarOnEvent (Event.EVT_KEY_BREAK Key.KEY_PGDN)]
      ∧ Menu.onEvent exMenu3 (Event.EVT_KEY_BREAK Key.KEY_PGDN) = []
      ∧ Menu.onEvent exMenuCancel (Event.EVT_KEY_BREAK Key.KEY_ENTER) = [Effect.deleteLater]
      ∧ Menu.onTouchEnd true 3 4 = ([], true)
      ∧ Menu.onTouchEnd false 3 4 = ([Effect.deleteLater], true) := by
  obtain ⟨_, h2, _, _, _, _, _, _, _, _⟩ :=
    menu_destruction_schedule exMenuCancel (Event.EVT_KEY_BREAK Key.KEY_PGDN) true true 3 4 0 0 0 0
  obtain ⟨_, _, _, _, g5, _, _, _, _, _⟩ :=
    menu_destruction_schedule exMenu3 (Event.EVT_KEY_BREAK Key.KEY_PGDN) true true 3 4 0 0 0 0
  obtain ⟨_, _, _, k4, _, _, _, _, _, _⟩ :=
    menu_destruction_schedule exMenuCancel (Event.EVT_KEY_BREAK Key.KEY_ENTER) true true 3 4 0 0 0 0
  exact ⟨h2.mpr (by decide), g5.mpr (by decide), k4.mpr (by decide), rfl, rfl⟩

/-- C5 at the eleven-line menu (`innerHeight = 219`, viewport `199`): `select(7)`
requests the scroll offset `20 * 7 - 3 * 20 = 80`; at the three-line menu, whose
content fits the viewport, `select(2)` leaves the scroll offset at `0`. -/
theorem select_index_and_scroll_scenario :
    (exMenu11.body.innerHeight > exMenu11.body.height
        ∧ InIntRange (exTheme.MENUS_LINE_HEIGHT * 7)
        ∧ InIntRange (3 * exTheme.MENUS_LINE_HEIGHT)
        ∧ InIntRange (exTheme.MENUS_LINE_HEIGHT * 7 - 3 * exTheme.MENUS_LINE_HEIGHT))
      ∧ (exMenu11.body.select exTheme 7).1.selectedIndex = 7
      ∧ (exMenu11.body.select exTheme 7).1.scrollPositionY = 80
      ∧ ¬ exMenu3.body.innerHeight > exMenu3.body.height
      ∧ (exMenu3.body.select exTheme 2).1.selectedIndex = 2
      ∧ (exMenu3.body.select exTheme 2).1.scrollPositionY = 0 := by
  obtain ⟨h1, _, h3, _, _, _, _, _⟩ := select_index_and_scroll exTheme exMenu11.body 7
  obtain ⟨g1, _, _, g4, _, _, _, _⟩ := select_index_and_scroll exTheme exMenu3.body 2
  have e3 := h3 (by decide) (by decide) (by decide) (by decide)
  have e4 := g4 (by decide)
  refine ⟨⟨by decide, by decide, by decide, by decide⟩, h1, ?_, by decide, g1, ?_⟩
  · rw [e3]; decide
  · rw [e4]; decide

/-- Outside the range of `int` the scroll expression of `select` wraps: index
`200000000` with line height `20` requests `-294967356`. -/
theorem select_scroll_wraps_outside_int :
    ¬ InIntRange (exTheme.MENUS_LINE_HEIGHT * 200000000)
      ∧ (exMenu11.body.select exTheme 200000000).1.scrollPositionY = -294967356 := by
  refine ⟨by decide, ?_⟩
  rw [select_state, if_pos (by decide)]
  decide

end LibOpenUI
